import Mathlib

/-!
Shallow embedding of `src/dpi/dpi_wrapper.cc` (spike-gold-dpi).

The wrapper owns at most one simulation instance (`g_sim`), four
configuration overrides with fixed defaults, and exposes C-callable
operations that turn every internal fault into a sentinel return value.
The underlying simulation engine (`sim_t`, `mem_t`, `processor_t`) is an
external collaborator of this repository; it is modelled by the abstract
interface `SpikeEngine`, whose operations may fault (`Except Unit`),
exactly mirroring the calls the wrapper makes through `try`/`catch`
blocks.  Machine integers are modelled as `Nat`; caller output buffers
are modelled by the list of 64-bit words the call writes (first
component of the result) together with a `Bool` flag for a null buffer
argument.  Heap allocations of the configuration object and the DRAM
region are tracked by the counters `configsLive` / `memsLive`, which a
`new` increments and a `delete` decrements.
-/

/-- Built-in default ISA string (`g_isa_default`). -/
def g_isa_default : String := "RV64GC"

/-- Built-in default DRAM base address (`g_dram_base_default`). -/
def g_dram_base_default : Nat := 0x80000000

/-- Built-in default DRAM size, 512 MiB (`g_dram_size_default`). -/
def g_dram_size_default : Nat := 512 * 1024 * 1024

/-- Built-in default initial program counter (`g_initial_pc_default`). -/
def g_initial_pc_default : Nat := 0x80000000

/-- The engine configuration object (`cfg_t`), restricted to the fields
the wrapper sets. -/
structure cfg_t where
  isa : String
  priv : String
  hartids : List Nat
deriving DecidableEq

/-- Debug module configuration (`debug_module_config_t`). -/
structure debug_module_config_t where
  progbufsize : Nat
  max_sba_data_width : Nat
  require_authentication : Bool
  abstract_rti : Nat
  support_hasel : Bool
  support_abstract_csr_access : Bool
  support_abstract_fpr_access : Bool
  support_haltgroups : Bool
  support_impebreak : Bool
deriving DecidableEq

/-- The fixed debug-module configuration built by `spike_create`. -/
def dm_config_fixed : debug_module_config_t :=
  { progbufsize := 2
    max_sba_data_width := 0
    require_authentication := false
    abstract_rti := 0
    support_hasel := true
    support_abstract_csr_access := true
    support_abstract_fpr_access := true
    support_haltgroups := true
    support_impebreak := true }

/-- The engine's vector unit (`vectorUnit_t`) as seen by the wrapper:
the raw register file bytes (`reg_file`, null when absent), `VLEN` in
bits, `vlenb` in bytes, the optional vector CSR objects (modelled by the
value their `read()` returns), and the fallback fields `vlmax` and
`vsew`. -/
structure vectorUnit_t where
  reg_file : Option (List Nat)
  vlen : Nat
  vlenb : Nat
  vxsat : Option Nat
  vxrm : Option Nat
  vstart : Option Nat
  vl : Option Nat
  vtype : Option Nat
  vlmax : Nat
  vsew : Nat

/-- The engine's architectural state object (`state_t`) as seen by the
wrapper: the 32 floating-point registers as raw little-endian bit
patterns of `fprSize` bytes each (`fprSize` is `sizeof(st->FPR[0])`),
and the address-indexed CSR map (values are the CSR objects, `none` for
a null pointer entry). -/
structure state_t where
  FPR : Fin 32 → Nat
  fprSize : Nat
  csrmap : List (Nat × Option Nat)

/-- The engine's processor object (`processor_t`) as seen by the
wrapper: `get_state()` (null when absent) and the vector unit `VU`. -/
structure processor_t where
  state : Option state_t
  VU : vectorUnit_t

/-- Interface of the external simulation engine consumed by the
wrapper.  `μ` is the memory-region type (`mem_t*`), `σ` the engine
state (`sim_t`).  Every operation the wrapper guards with `try`/`catch`
is fallible (`Except Unit`).  `new_sim` takes, in source order: the
configuration, the `halted` flag, the memory map, the plugin device
factories, the HTIF arguments, the debug-module configuration, the log
path, `dtb_enabled`, the DTB file, `socket_enabled`, the command file
and the instruction limit. -/
structure SpikeEngine (μ σ : Type) where
  new_mem : Nat → Except Unit μ
  new_sim : cfg_t → Bool → List (Nat × μ) → List Unit → List String →
    debug_module_config_t → String → Bool → Option String → Bool →
    Option String → Option Nat → Except Unit σ
  set_debug : σ → Bool → Except Unit σ
  start : σ → Except Unit σ
  dpi_reset : σ → Except Unit σ
  dpi_set_pc : σ → Nat → Except Unit σ
  dpi_step : σ → Nat → Except Unit (Int × σ)
  dpi_get_pc : σ → Nat → Except Unit Nat
  dpi_get_all_gprs : σ → Nat → Except Unit (Int × List Nat)
  dpi_get_csr : σ → Nat → Nat → Except Unit Nat
  get_core_by_id : σ → Nat → Except Unit (Option processor_t)

/-- The wrapper's process-wide mutable state: the single instance
handle `g_sim` and the four configuration overrides, plus the resource
accounting for the configuration object and the DRAM region allocated
by `spike_create`. -/
structure WrapperState (σ : Type) where
  g_sim : Option σ
  g_isa_override : Option String
  g_dram_base_override : Option Nat
  g_dram_size_override : Option Nat
  g_initial_pc_override : Option Nat
  configsLive : Nat
  memsLive : Nat

/-- The state at process start: no instance, no overrides, nothing
allocated. -/
def initState : WrapperState Nat :=
  { g_sim := none
    g_isa_override := none
    g_dram_base_override := none
    g_dram_size_override := none
    g_initial_pc_override := none
    configsLive := 0
    memsLive := 0 }

/-- `spike_set_isa`: null clears the override, otherwise store it. -/
def spike_set_isa (st : WrapperState σ) (isa : Option String) : WrapperState σ :=
  match isa with
  | none => { st with g_isa_override := none }
  | some s => { st with g_isa_override := some s }

/-- `spike_set_dram_base`. -/
def spike_set_dram_base (st : WrapperState σ) (base : Nat) : WrapperState σ :=
  { st with g_dram_base_override := some base }

/-- `spike_set_dram_size`. -/
def spike_set_dram_size (st : WrapperState σ) (size : Nat) : WrapperState σ :=
  { st with g_dram_size_override := some size }

/-- `spike_set_pc`: applies live (fault swallowed) when an instance
exists, otherwise stores the initial-PC override. -/
def spike_set_pc (eng : SpikeEngine μ σ) (st : WrapperState σ) (pc : Nat) :
    WrapperState σ :=
  match st.g_sim with
  | some s =>
    match eng.dpi_set_pc s pc with
    | .ok s' => { st with g_sim := some s' }
    | .error _ => st
  | none => { st with g_initial_pc_override := some pc }

/-- `spike_create`: no-op when an instance exists or the path is null;
otherwise allocates the configuration object, resolves the four
configuration values by override-else-default, allocates the DRAM
region (on failure deletes the configuration object), constructs the
engine with the fixed topology and the `+payload=`/bare boot arguments,
starts it, resets it, and applies the resolved initial PC (that last
fault swallowed).  On a construction/startup fault only `g_sim` is
deleted, exactly as in the source's `catch` blocks. -/
def spike_create (eng : SpikeEngine μ σ) (st : WrapperState σ)
    (filename : Option String) : WrapperState σ :=
  match st.g_sim with
  | some _ => st
  | none =>
  match filename with
  | none => st
  | some fn =>
    let st1 : WrapperState σ := { st with configsLive := st.configsLive + 1 }
    let config : cfg_t :=
      { isa := st.g_isa_override.getD g_isa_default
        priv := "M"
        hartids := [0] }
    let dram_base := st.g_dram_base_override.getD g_dram_base_default
    let dram_size := st.g_dram_size_override.getD g_dram_size_default
    let htif_args : List String := ["+payload=" ++ fn, fn]
    match eng.new_mem dram_size with
    | .error _ => { st1 with configsLive := st1.configsLive - 1 }
    | .ok m =>
      let st2 : WrapperState σ := { st1 with memsLive := st1.memsLive + 1 }
      match eng.new_sim config false [(dram_base, m)] [] htif_args
          dm_config_fixed "dpi_spike.log" false none false none none with
      | .error _ => st2
      | .ok s0 =>
        match eng.set_debug s0 false with
        | .error _ => st2
        | .ok s1 =>
          match eng.start s1 with
          | .error _ => st2
          | .ok s2 =>
            match eng.dpi_reset s2 with
            | .error _ => st2
            | .ok s3 =>
              let pc := st.g_initial_pc_override.getD g_initial_pc_default
              match eng.dpi_set_pc s3 pc with
              | .ok s4 => { st2 with g_sim := some s4 }
              | .error _ => { st2 with g_sim := some s3 }

/-- `spike_delete`: destroys the instance if one exists. -/
def spike_delete (st : WrapperState σ) : WrapperState σ :=
  match st.g_sim with
  | none => st
  | some _ => { st with g_sim := none }

/-- `spike_step`: `-1` when no instance or on fault, else the engine's
status code from `dpi_step(1)`. -/
def spike_step (eng : SpikeEngine μ σ) (st : WrapperState σ) :
    Int × WrapperState σ :=
  match st.g_sim with
  | none => (-1, st)
  | some s =>
    match eng.dpi_step s 1 with
    | .ok (r, s') => (r, { st with g_sim := some s' })
    | .error _ => (-1, st)

/-- `spike_reset`: no-op when no instance; fault swallowed. -/
def spike_reset (eng : SpikeEngine μ σ) (st : WrapperState σ) :
    WrapperState σ :=
  match st.g_sim with
  | none => st
  | some s =>
    match eng.dpi_reset s with
    | .ok s' => { st with g_sim := some s' }
    | .error _ => st

/-- `spike_get_pc`: 0 when no instance or on fault. -/
def spike_get_pc (eng : SpikeEngine μ σ) (st : WrapperState σ)
    (hartid : Nat) : Nat :=
  match st.g_sim with
  | none => 0
  | some s =>
    match eng.dpi_get_pc s hartid with
    | .ok v => v
    | .error _ => 0

/-- `spike_get_all_gprs`: the words written into the caller buffer and
the returned count; `([], 0)` when no instance, null buffer or fault. -/
def spike_get_all_gprs (eng : SpikeEngine μ σ) (st : WrapperState σ)
    (hartid : Nat) (outNull : Bool) : List Nat × Int :=
  match st.g_sim with
  | none => ([], 0)
  | some s =>
    if outNull then ([], 0)
    else
      match eng.dpi_get_all_gprs s hartid with
      | .ok (r, ws) => (ws, r)
      | .error _ => ([], 0)

/-- `spike_get_csr`: 0 when no instance or on fault. -/
def spike_get_csr (eng : SpikeEngine μ σ) (st : WrapperState σ)
    (hartid csr_addr : Nat) : Nat :=
  match st.g_sim with
  | none => 0
  | some s =>
    match eng.dpi_get_csr s hartid csr_addr with
    | .ok v => v
    | .error _ => 0

/-- `spike_get_all_fprs`: copies `min(sizeof FPR, 8)` raw little-endian
bytes of each of the 32 FPRs into a zero-initialised 64-bit word;
returns the 32 words and count 32, or `([], 0)` when no instance, null
buffer, absent core/state or fault. -/
def spike_get_all_fprs (eng : SpikeEngine μ σ) (st : WrapperState σ)
    (hartid : Nat) (outNull : Bool) : List Nat × Int :=
  match st.g_sim with
  | none => ([], 0)
  | some s =>
    if outNull then ([], 0)
    else
      match eng.get_core_by_id s hartid with
      | .error _ => ([], 0)
      | .ok none => ([], 0)
      | .ok (some p) =>
        match p.state with
        | none => ([], 0)
        | some stt =>
          let fpr_size := stt.fprSize
          let copy_bytes := min fpr_size 8
          (List.ofFn (fun i : Fin 32 => stt.FPR i % 2 ^ (8 * copy_bytes)), 32)

/-- Value of a little-endian byte sequence. -/
def leBytes : List Nat → Nat
  | [] => 0
  | b :: bs => b + 256 * leBytes bs

/-- `spike_get_all_vregs`: serializes the vector register file as
64-bit words.  `cap` is `out_size_qwords`; the first component is the
words written into the caller buffer, the second the returned count. -/
def spike_get_all_vregs (eng : SpikeEngine μ σ) (st : WrapperState σ)
    (hartid : Nat) (outNull : Bool) (cap : Int) : List Nat × Int :=
  match st.g_sim with
  | none => ([], 0)
  | some s =>
    if outNull ∨ cap ≤ 0 then ([], 0)
    else
      match eng.get_core_by_id s hartid with
      | .error _ => ([], 0)
      | .ok none => ([], 0)
      | .ok (some p) =>
        match p.VU.reg_file with
        | none => ([], 0)
        | some rf =>
          let vlen := p.VU.vlen
          if vlen = 0 then ([], 0)
          else
            let bytes_per_reg := vlen / 8
            let nregs := 32
            let total_bytes := bytes_per_reg * nregs
            let total_qwords := (total_bytes + 7) / 8
            let to_write := min cap.toNat total_qwords
            (List.ofFn (fun q : Fin to_write =>
                let byte_idx := q.val * 8
                if byte_idx < total_bytes then
                  leBytes ((rf.drop byte_idx).take (min 8 (total_bytes - byte_idx)))
                else 0),
             (to_write : Int))

/-- `spike_get_vlen`: `VU.get_vlen()`, 0 when unavailable. -/
def spike_get_vlen (eng : SpikeEngine μ σ) (st : WrapperState σ)
    (hartid : Nat) : Nat :=
  match st.g_sim with
  | none => 0
  | some s =>
    match eng.get_core_by_id s hartid with
    | .error _ => 0
    | .ok none => 0
    | .ok (some p) => p.VU.vlen

/-- `spike_get_vlenb`: `VU.vlenb`, 0 when unavailable. -/
def spike_get_vlenb (eng : SpikeEngine μ σ) (st : WrapperState σ)
    (hartid : Nat) : Nat :=
  match st.g_sim with
  | none => 0
  | some s =>
    match eng.get_core_by_id s hartid with
    | .error _ => 0
    | .ok none => 0
    | .ok (some p) => p.VU.vlenb

/-- `spike_get_vxsat`: reads the CSR object when present, else 0. -/
def spike_get_vxsat (eng : SpikeEngine μ σ) (st : WrapperState σ)
    (hartid : Nat) : Nat :=
  match st.g_sim with
  | none => 0
  | some s =>
    match eng.get_core_by_id s hartid with
    | .error _ => 0
    | .ok none => 0
    | .ok (some p) => (p.VU.vxsat).getD 0

/-- `spike_get_vxrm`: reads the CSR object when present, else 0. -/
def spike_get_vxrm (eng : SpikeEngine μ σ) (st : WrapperState σ)
    (hartid : Nat) : Nat :=
  match st.g_sim with
  | none => 0
  | some s =>
    match eng.get_core_by_id s hartid with
    | .error _ => 0
    | .ok none => 0
    | .ok (some p) => (p.VU.vxrm).getD 0

/-- `spike_get_vstart`: reads the CSR object when present, else 0. -/
def spike_get_vstart (eng : SpikeEngine μ σ) (st : WrapperState σ)
    (hartid : Nat) : Nat :=
  match st.g_sim with
  | none => 0
  | some s =>
    match eng.get_core_by_id s hartid with
    | .error _ => 0
    | .ok none => 0
    | .ok (some p) => (p.VU.vstart).getD 0

/-- `spike_get_vl`: reads the CSR object when present, else falls back
to `vlmax`. -/
def spike_get_vl (eng : SpikeEngine μ σ) (st : WrapperState σ)
    (hartid : Nat) : Nat :=
  match st.g_sim with
  | none => 0
  | some s =>
    match eng.get_core_by_id s hartid with
    | .error _ => 0
    | .ok none => 0
    | .ok (some p) =>
      match p.VU.vl with
      | some v => v
      | none => p.VU.vlmax

/-- `spike_get_vtype`: reads the CSR object when present, else falls
back to `vsew & 0xFF`. -/
def spike_get_vtype (eng : SpikeEngine μ σ) (st : WrapperState σ)
    (hartid : Nat) : Nat :=
  match st.g_sim with
  | none => 0
  | some s =>
    match eng.get_core_by_id s hartid with
    | .error _ => 0
    | .ok none => 0
    | .ok (some p) =>
      match p.VU.vtype with
      | some v => v
      | none => p.VU.vsew % 256

/-- `spike_get_vcsr`: looks up the CSR map by address; 0 when the entry
is absent or a null pointer. -/
def spike_get_vcsr (eng : SpikeEngine μ σ) (st : WrapperState σ)
    (hartid csr_addr : Nat) : Nat :=
  match st.g_sim with
  | none => 0
  | some s =>
    match eng.get_core_by_id s hartid with
    | .error _ => 0
    | .ok none => 0
    | .ok (some p) =>
      match p.state with
      | none => 0
      | some stt =>
        match stt.csrmap.lookup csr_addr with
        | some (some v) => v
        | some none => 0
        | none => 0

/-! ## Concrete model engine used to instantiate the theorems -/

/-- A concrete vector unit: `VLEN = 128`, `vlenb = 16`, register file of
`32 * 16` zero bytes, all vector CSR objects present. -/
def witVU : vectorUnit_t :=
  { reg_file := some (List.replicate 512 0)
    vlen := 128
    vlenb := 16
    vxsat := some 0
    vxrm := some 0
    vstart := some 0
    vl := some 0
    vtype := some 0
    vlmax := 16
    vsew := 8 }

/-- A concrete architectural state: 16-byte FPRs all zero, empty CSR
map. -/
def witState : state_t :=
  { FPR := fun _ => 0
    fprSize := 16
    csrmap := [] }

/-- A concrete processor. -/
def witProc : processor_t :=
  { state := some witState
    VU := witVU }

/-- A concrete engine that never faults: the engine state is the
current PC. -/
def witEngine : SpikeEngine Nat Nat :=
  { new_mem := fun sz => .ok sz
    new_sim := fun _ _ _ _ _ _ _ _ _ _ _ _ => .ok 0
    set_debug := fun s _ => .ok s
    start := fun s => .ok s
    dpi_reset := fun s => .ok s
    dpi_set_pc := fun _ pc => .ok pc
    dpi_step := fun s _ => .ok (0, s)
    dpi_get_pc := fun s _ => .ok s
    dpi_get_all_gprs := fun _ _ => .ok (32, List.replicate 32 0)
    dpi_get_csr := fun _ _ _ => .ok 0
    get_core_by_id := fun _ _ => .ok (some witProc) }

/-- Like `witEngine`, but the engine constructor throws. -/
def failSimEngine : SpikeEngine Nat Nat :=
  { witEngine with new_sim := fun _ _ _ _ _ _ _ _ _ _ _ _ => .error () }

/-- A state with a live instance (PC 0) and no overrides. -/
def liveState : WrapperState Nat :=
  { initState with g_sim := some 0 }

/-! ## Helper lemmas -/

/-- The happy path of `spike_create`: when no instance exists and every
engine call succeeds, the new instance is the engine state obtained by
constructing with the resolved configuration, setting debug off,
starting, resetting, and finally applying the resolved initial PC. -/
theorem create_success_state (eng : SpikeEngine μ σ) (st : WrapperState σ)
    (fn : String) (m : μ) (s0 s1 s2 s3 s4 : σ)
    (hno : st.g_sim = none)
    (hmem : eng.new_mem (st.g_dram_size_override.getD g_dram_size_default) = .ok m)
    (hsim : eng.new_sim
      { isa := st.g_isa_override.getD g_isa_default, priv := "M", hartids := [0] }
      false [(st.g_dram_base_override.getD g_dram_base_default, m)] []
      ["+payload=" ++ fn, fn] dm_config_fixed "dpi_spike.log" false none false
      none none = .ok s0)
    (hdbg : eng.set_debug s0 false = .ok s1)
    (hstart : eng.start s1 = .ok s2)
    (hreset : eng.dpi_reset s2 = .ok s3)
    (hpc : eng.dpi_set_pc s3 (st.g_initial_pc_override.getD g_initial_pc_default)
      = .ok s4) :
    spike_create eng st (some fn) =
      { st with
          g_sim := some s4
          configsLive := st.configsLive + 1
          memsLive := st.memsLive + 1 } := by
  simp [spike_create, hno, hmem, hsim, hdbg, hstart, hreset, hpc]

/-- C1: `spike_create` with a non-null path and no existing instance
resolves the ISA, DRAM base, DRAM size and initial PC by
override-else-default, maps one memory region of the resolved size at
the resolved base, and applies the resolved initial PC to the new
instance after starting and resetting it. -/
theorem spike_create_resolves_overrides (eng : SpikeEngine μ σ)
    (st : WrapperState σ) (fn : String) (m : μ) (s0 s1 s2 s3 s4 : σ)
    (hno : st.g_sim = none)
    (hmem : eng.new_mem (st.g_dram_size_override.getD g_dram_size_default) = .ok m)
    (hsim : eng.new_sim
      { isa := st.g_isa_override.getD g_isa_default, priv := "M", hartids := [0] }
      false [(st.g_dram_base_override.getD g_dram_base_default, m)] []
      ["+payload=" ++ fn, fn] dm_config_fixed "dpi_spike.log" false none false
      none none = .ok s0)
    (hdbg : eng.set_debug s0 false = .ok s1)
    (hstart : eng.start s1 = .ok s2)
    (hreset : eng.dpi_reset s2 = .ok s3)
    (hpc : eng.dpi_set_pc s3 (st.g_initial_pc_override.getD g_initial_pc_default)
      = .ok s4) :
    spike_create eng st (some fn) =
      { st with
          g_sim := some s4
          configsLive := st.configsLive + 1
          memsLive := st.memsLive + 1 } :=
  create_success_state eng st fn m s0 s1 s2 s3 s4 hno hmem hsim hdbg hstart
    hreset hpc

/-- Witness for C1 at a concrete engine and the pristine state: every
default is used and the new instance carries the default initial PC. -/
theorem spike_create_resolves_overrides_witness :
    spike_create witEngine initState (some "prog.elf") =
      { initState with
          g_sim := some 0x80000000
          configsLive := 1
          memsLive := 1 } :=
  spike_create_resolves_overrides witEngine initState "prog.elf"
    g_dram_size_default 0 0 0 0 0x80000000 rfl rfl rfl rfl rfl rfl rfl

/-- C2: when no instance exists, `spike_step` returns the sentinel `-1`
and every accessor returns its documented sentinel 0 (empty write for
the buffer-filling accessors), with the wrapper state untouched; being
total Lean functions, none of them propagates a fault. -/
theorem no_instance_sentinels (eng : SpikeEngine μ σ) (st : WrapperState σ)
    (hno : st.g_sim = none) :
    spike_step eng st = (-1, st)
    ∧ ∀ (hart addr : Nat) (outNull : Bool) (cap : Int),
        spike_get_pc eng st hart = 0
        ∧ spike_get_all_gprs eng st hart outNull = ([], 0)
        ∧ spike_get_csr eng st hart addr = 0
        ∧ spike_get_all_fprs eng st hart outNull = ([], 0)
        ∧ spike_get_all_vregs eng st hart outNull cap = ([], 0)
        ∧ spike_get_vlen eng st hart = 0
        ∧ spike_get_vlenb eng st hart = 0
        ∧ spike_get_vxsat eng st hart = 0
        ∧ spike_get_vxrm eng st hart = 0
        ∧ spike_get_vstart eng st hart = 0
        ∧ spike_get_vl eng st hart = 0
        ∧ spike_get_vtype eng st hart = 0
        ∧ spike_get_vcsr eng st hart addr = 0 := by
  refine ⟨?_, fun hart addr outNull cap => ?_⟩
  · simp [spike_step, hno]
  · refine ⟨?_, ?_, ?_, ?_, ?_, ?_, ?_, ?_, ?_, ?_, ?_, ?_, ?_⟩ <;>
      simp [spike_get_pc, spike_get_all_gprs, spike_get_csr,
        spike_get_all_fprs, spike_get_all_vregs, spike_get_vlen,
        spike_get_vlenb, spike_get_vxsat, spike_get_vxrm, spike_get_vstart,
        spike_get_vl, spike_get_vtype, spike_get_vcsr, hno]

/-- Witness for C2 at the pristine state and a concrete engine. -/
theorem no_instance_sentinels_witness :
    spike_step witEngine initState = (-1, initState)
    ∧ spike_get_pc witEngine initState 0 = 0
    ∧ spike_get_all_gprs witEngine initState 0 false = ([], 0)
    ∧ spike_get_csr witEngine initState 0 0x300 = 0
    ∧ spike_get_all_fprs witEngine initState 0 false = ([], 0)
    ∧ spike_get_all_vregs witEngine initState 0 false 64 = ([], 0)
    ∧ spike_get_vlen witEngine initState 0 = 0
    ∧ spike_get_vlenb witEngine initState 0 = 0
    ∧ spike_get_vxsat witEngine initState 0 = 0
    ∧ spike_get_vxrm witEngine initState 0 = 0
    ∧ spike_get_vstart witEngine initState 0 = 0
    ∧ spike_get_vl witEngine initState 0 = 0
    ∧ spike_get_vtype witEngine initState 0 = 0
    ∧ spike_get_vcsr witEngine initState 0 0x300 = 0 :=
  ⟨(no_instance_sentinels witEngine initState rfl).1,
   ((no_instance_sentinels witEngine initState rfl).2 0 0x300 false 64).1,
   ((no_instance_sentinels witEngine initState rfl).2 0 0x300 false 64).2.1,
   ((no_instance_sentinels witEngine initState rfl).2 0 0x300 false 64).2.2.1,
   ((no_instance_sentinels witEngine initState rfl).2 0 0x300 false 64).2.2.2.1,
   ((no_instance_sentinels witEngine initState rfl).2 0 0x300 false 64).2.2.2.2.1,
   ((no_instance_sentinels witEngine initState rfl).2 0 0x300 false 64).2.2.2.2.2.1,
   ((no_instance_sentinels witEngine initState rfl).2 0 0x300 false 64).2.2.2.2.2.2.1,
   ((no_instance_sentinels witEngine initState rfl).2 0 0x300 false 64).2.2.2.2.2.2.2.1,
   ((no_instance_sentinels witEngine initState rfl).2 0 0x300 false 64).2.2.2.2.2.2.2.2.1,
   ((no_instance_sentinels witEngine initState rfl).2 0 0x300 false 64).2.2.2.2.2.2.2.2.2.1,
   ((no_instance_sentinels witEngine initState rfl).2 0 0x300 false 64).2.2.2.2.2.2.2.2.2.2.1,
   ((no_instance_sentinels witEngine initState rfl).2 0 0x300 false 64).2.2.2.2.2.2.2.2.2.2.2.1,
   ((no_instance_sentinels witEngine initState rfl).2 0 0x300 false 64).2.2.2.2.2.2.2.2.2.2.2.2⟩

/-- C3: `spike_create` with an existing instance, or with a null path,
returns the state unchanged: the duplicate call never replaces or
mutates the existing instance and signals no error. -/
theorem spike_create_noop_when_duplicate_or_null (eng : SpikeEngine μ σ)
    (st : WrapperState σ) :
    (∀ s : σ, st.g_sim = some s → ∀ fn : Option String,
        spike_create eng st fn = st)
    ∧ spike_create eng st none = st := by
  constructor
  · intro s hs fn
    simp [spike_create, hs]
  · cases hgs : st.g_sim <;> simp [spike_create, hgs]

/-- Witness for C3: a second `create` in a row on a live state is a
pure no-op, and so is `create` with a null path. -/
theorem spike_create_noop_witness :
    spike_create witEngine liveState (some "other.elf") = liveState
    ∧ spike_create witEngine liveState none = liveState :=
  ⟨(spike_create_noop_when_duplicate_or_null witEngine liveState).1 0 rfl
      (some "other.elf"),
   (spike_create_noop_when_duplicate_or_null witEngine liveState).2⟩

/-- C4 (code bug): when the engine constructor faults during
`spike_create`, the system is indeed left with no live instance, but
the already-allocated configuration object and memory region are NOT
released — the `catch` block only deletes `g_sim`, which was never
assigned, so both allocations leak. -/
theorem spike_create_engine_fault_leaks :
    (spike_create failSimEngine initState (some "prog.elf")).g_sim = none
    ∧ (spike_create failSimEngine initState (some "prog.elf")).configsLive = 1
    ∧ (spike_create failSimEngine initState (some "prog.elf")).memsLive = 1 :=
  ⟨rfl, rfl, rfl⟩

/-- C5: `spike_set_pc` is dual-mode.  With a live instance it applies
the value immediately through the engine (a following `spike_get_pc`
then returns it without a step, given the engine's set/get coherence at
that state), a fault from the live application is swallowed; with no
instance it stores the value as the initial-PC override. -/
theorem spike_set_pc_dual_mode (eng : SpikeEngine μ σ) (st : WrapperState σ)
    (P hart : Nat) :
    (∀ s s' : σ, st.g_sim = some s → eng.dpi_set_pc s P = .ok s' →
        spike_set_pc eng st P = { st with g_sim := some s' }
        ∧ (eng.dpi_get_pc s' hart = .ok P →
            spike_get_pc eng (spike_set_pc eng st P) hart = P))
    ∧ (∀ s : σ, st.g_sim = some s → eng.dpi_set_pc s P = .error () →
        spike_set_pc eng st P = st)
    ∧ (st.g_sim = none →
        spike_set_pc eng st P = { st with g_initial_pc_override := some P }) := by
  refine ⟨fun s s' hs hset => ⟨?_, fun hget => ?_⟩, fun s hs hset => ?_, fun hno => ?_⟩
  · simp [spike_set_pc, hs, hset]
  · simp [spike_set_pc, spike_get_pc, hs, hset, hget]
  · simp [spike_set_pc, hs, hset]
  · simp [spike_set_pc, hno]

/-- Witness for C5: live application at PC 5 is immediately visible to
`spike_get_pc`, and with no instance the override is stored. -/
theorem spike_set_pc_dual_mode_witness :
    spike_set_pc witEngine liveState 5 = { liveState with g_sim := some 5 }
    ∧ spike_get_pc witEngine (spike_set_pc witEngine liveState 5) 0 = 5
    ∧ spike_set_pc witEngine initState 5 =
        { initState with g_initial_pc_override := some 5 } :=
  ⟨((spike_set_pc_dual_mode witEngine liveState 5 0).1 0 5 rfl rfl).1,
   ((spike_set_pc_dual_mode witEngine liveState 5 0).1 0 5 rfl rfl).2 rfl,
   (spike_set_pc_dual_mode witEngine initState 5 0).2.2 rfl⟩

/-- Copying `min n 8` raw bytes of an `n`-byte value into a
zero-initialised 64-bit word yields the value zero-extended or
truncated to 64 bits. -/
theorem mod_pow_min_eight (x n : Nat) (h : x < 2 ^ (8 * n)) :
    x % 2 ^ (8 * min n 8) = x % 2 ^ 64 := by
  rcases le_or_lt n 8 with hn | hn
  · have h64 : x < 2 ^ 64 :=
      lt_of_lt_of_le h (Nat.pow_le_pow_right (by norm_num) (by omega))
    rw [min_eq_left hn, Nat.mod_eq_of_lt h, Nat.mod_eq_of_lt h64]
  · rw [min_eq_right (le_of_lt hn)]

/-- C7: `spike_get_all_fprs` writes each FPR's raw bit pattern
zero-extended (or truncated) to 64 bits, whatever the engine's native
FPR byte width, and returns 32; with a null buffer or no live instance
it returns 0 and writes nothing, and so does `spike_get_all_gprs` with
a null buffer. -/
theorem spike_get_all_fprs_raw_bits (eng : SpikeEngine μ σ)
    (st : WrapperState σ) (hart : Nat) :
    (∀ (s : σ) (p : processor_t) (stt : state_t), st.g_sim = some s →
        eng.get_core_by_id s hart = .ok (some p) → p.state = some stt →
        (∀ i : Fin 32, stt.FPR i < 2 ^ (8 * stt.fprSize)) →
        spike_get_all_fprs eng st hart false =
          (List.ofFn (fun i : Fin 32 => stt.FPR i % 2 ^ 64), 32))
    ∧ spike_get_all_fprs eng st hart true = ([], 0)
    ∧ (st.g_sim = none → spike_get_all_fprs eng st hart false = ([], 0))
    ∧ spike_get_all_gprs eng st hart true = ([], 0) := by
  refine ⟨fun s p stt hs hcore hstate hbound => ?_, ?_, fun hno => ?_, ?_⟩
  · have hfun : (fun i : Fin 32 => stt.FPR i % 2 ^ (8 * min stt.fprSize 8))
        = fun i : Fin 32 => stt.FPR i % 2 ^ 64 :=
      funext fun i => mod_pow_min_eight _ _ (hbound i)
    simp [spike_get_all_fprs, hs, hcore, hstate, hfun]
  · cases hgs : st.g_sim <;> simp [spike_get_all_fprs, hgs]
  · simp [spike_get_all_fprs, hno]
  · cases hgs : st.g_sim <;> simp [spike_get_all_gprs, hgs]

/-- Witness for C7 at the concrete engine (16-byte FPRs, all zero). -/
theorem spike_get_all_fprs_raw_bits_witness :
    spike_get_all_fprs witEngine liveState 0 false =
      (List.ofFn (fun i : Fin 32 => witState.FPR i % 2 ^ 64), 32)
    ∧ spike_get_all_fprs witEngine liveState 0 true = ([], 0)
    ∧ spike_get_all_fprs witEngine initState 0 false = ([], 0)
    ∧ spike_get_all_gprs witEngine liveState 0 true = ([], 0) :=
  ⟨(spike_get_all_fprs_raw_bits witEngine liveState 0).1 0 witProc witState rfl
      rfl rfl (fun _ => by norm_num [witState]),
   (spike_get_all_fprs_raw_bits witEngine liveState 0).2.1,
   (spike_get_all_fprs_raw_bits witEngine initState 0).2.2.1 rfl,
   (spike_get_all_fprs_raw_bits witEngine liveState 0).2.2.2⟩

/-- C8: whenever both calls reach the same available core,
`spike_get_vlenb` returns `spike_get_vlen` divided by 8, given the
engine's documented invariant that `vlenb` is `VLEN` in bits divided
by 8. -/
theorem spike_get_vlenb_eq_vlen_div_eight (eng : SpikeEngine μ σ)
    (st : WrapperState σ) (s : σ) (p : processor_t) (hart : Nat)
    (hs : st.g_sim = some s)
    (hcore : eng.get_core_by_id s hart = .ok (some p))
    (hVU : p.VU.vlenb = p.VU.vlen / 8) :
    spike_get_vlenb eng st hart = spike_get_vlen eng st hart / 8 := by
  simp [spike_get_vlenb, spike_get_vlen, hs, hcore, hVU]

/-- Witness for C8: `VLEN = 128` bits gives `vlenb = 16` bytes. -/
theorem spike_get_vlenb_eq_vlen_div_eight_witness :
    spike_get_vlenb witEngine liveState 0 = spike_get_vlen witEngine liveState 0 / 8 :=
  spike_get_vlenb_eq_vlen_div_eight witEngine liveState 0 witProc 0 rfl rfl rfl

/-- Splitting the low byte off a little-endian value under a modulus
that is a multiple of 256. -/
theorem add_mul_mod_mul (b x m : Nat) (hb : b < 256) :
    (b + 256 * x) % (256 * m) = b + 256 * (x % m) := by
  rcases Nat.eq_zero_or_pos m with hm | hm
  · subst hm
    simp [Nat.mod_zero]
  · have hx : b + 256 * x = b + 256 * (x % m) + (x / m) * (256 * m) := by
      conv_lhs => rw [← Nat.div_add_mod x m]
      ring
    rw [hx, Nat.add_mul_mod_self_right]
    have key : ∀ r : Nat, r < m → b + 256 * r < 256 * m := fun r hr => by omega
    exact Nat.mod_eq_of_lt (key _ (Nat.mod_lt x hm))

/-- Taking the first `k` bytes of a little-endian byte sequence keeps
exactly the value modulo `256 ^ k`. -/
theorem leBytes_take (l : List Nat) (hb : ∀ b ∈ l, b < 256) (k : Nat) :
    leBytes (l.take k) = leBytes l % 256 ^ k := by
  induction l generalizing k with
  | nil => simp [leBytes]
  | cons b bs ih =>
    cases k with
    | zero => simp [leBytes, Nat.mod_one]
    | succ j =>
      have hb' : ∀ x ∈ bs, x < 256 := fun x hx => hb x (List.mem_cons_of_mem _ hx)
      have hbb : b < 256 := hb b (List.mem_cons_self _ _)
      simp only [List.take_succ_cons, leBytes]
      rw [ih hb' j, pow_succ, mul_comm (256 ^ j) 256]
      exact (add_mul_mod_mul b (leBytes bs) (256 ^ j) hbb).symm

/-- First element of a non-empty `List.ofFn`. -/
theorem getElem0_ofFn {α : Type} {n : Nat} (f : Fin n → α) (h : 0 < n) :
    (List.ofFn f)[0]? = some (f ⟨0, h⟩) := by
  rw [List.getElem?_eq_getElem (by simpa using h)]
  simp

/-- C6: for a live instance whose vector unit is available,
`spike_get_all_vregs` writes exactly `min(capacity, 32 * VLEN / 64)`
64-bit words and returns that count, with word 0 holding the
least-significant 64 bits of vector register 0; it returns 0 and writes
nothing on a null buffer, non-positive capacity, `VLEN = 0`, a null
register file, or an unavailable hart. -/
theorem spike_get_all_vregs_layout (eng : SpikeEngine μ σ)
    (st : WrapperState σ) (s : σ) (hart : Nat) (hs : st.g_sim = some s) :
    (∀ (p : processor_t) (rf : List Nat) (cap : Int),
        eng.get_core_by_id s hart = .ok (some p) →
        p.VU.reg_file = some rf → p.VU.vlen % 8 = 0 → p.VU.vlen ≠ 0 →
        0 < cap →
        (spike_get_all_vregs eng st hart false cap).2
            = ((min cap.toNat (32 * p.VU.vlen / 64) : Nat) : Int)
        ∧ (spike_get_all_vregs eng st hart false cap).1.length
            = min cap.toNat (32 * p.VU.vlen / 64)
        ∧ (64 ≤ p.VU.vlen → (∀ b ∈ rf, b < 256) →
            (spike_get_all_vregs eng st hart false cap).1[0]?
              = some (leBytes (rf.take (p.VU.vlen / 8)) % 2 ^ 64)))
    ∧ (∀ cap : Int, spike_get_all_vregs eng st hart true cap = ([], 0))
    ∧ (∀ cap : Int, cap ≤ 0 → spike_get_all_vregs eng st hart false cap = ([], 0))
    ∧ (∀ p : processor_t, eng.get_core_by_id s hart = .ok (some p) →
        p.VU.vlen = 0 → ∀ cap : Int,
        spike_get_all_vregs eng st hart false cap = ([], 0))
    ∧ (∀ p : processor_t, eng.get_core_by_id s hart = .ok (some p) →
        p.VU.reg_file = none → ∀ cap : Int,
        spike_get_all_vregs eng st hart false cap = ([], 0))
    ∧ (eng.get_core_by_id s hart = .ok none → ∀ cap : Int,
        spike_get_all_vregs eng st hart false cap = ([], 0)) := by
  refine ⟨fun p rf cap hcore hrf h8 hv0 hcap => ?_,
    fun cap => ?_, fun cap hc => ?_, fun p hcore hv cap => ?_,
    fun p hcore hr cap => ?_, fun hcore cap => ?_⟩
  · have hcap' : ¬ cap ≤ 0 := not_le.mpr hcap
    have htq : (p.VU.vlen / 8 * 32 + 7) / 8 = 32 * p.VU.vlen / 64 := by omega
    refine ⟨?_, ?_, ?_⟩
    · simp [spike_get_all_vregs, hs, hcore, hrf, hv0, hcap', htq]
    · simp [spike_get_all_vregs, hs, hcore, hrf, hv0, hcap', htq]
    · intro hv64 hbytes
      have hbpr : 8 ≤ p.VU.vlen / 8 := by omega
      have hq : 0 < min cap.toNat ((p.VU.vlen / 8 * 32 + 7) / 8) := by
        have h1 : 0 < cap.toNat := by omega
        omega
      have h0tb : 0 * 8 < p.VU.vlen / 8 * 32 := by omega
      have hmin8 : min 8 (p.VU.vlen / 8 * 32 - 0 * 8) = 8 := by omega
      have hsub : ∀ b ∈ rf.take (p.VU.vlen / 8), b < 256 :=
        fun b hb => hbytes b (List.take_subset _ _ hb)
      have h1 : leBytes ((rf.take (p.VU.vlen / 8)).take 8)
          = leBytes (rf.take (p.VU.vlen / 8)) % 256 ^ 8 := leBytes_take _ hsub 8
      rw [List.take_take, min_eq_left hbpr,
        show (256 : Nat) ^ 8 = 2 ^ 64 by norm_num] at h1
      simp only [spike_get_all_vregs, hs, hcore, hrf]
      rw [if_neg (by simp [hcap'])]
      rw [if_neg hv0]
      rw [getElem0_ofFn _ hq]
      simp only [h0tb, if_pos, Nat.zero_mul, List.drop_zero, hmin8]
      rw [h1]
  · simp [spike_get_all_vregs, hs]
  · simp [spike_get_all_vregs, hs, hc]
  · rcases le_or_lt cap 0 with hc | hc
    · simp [spike_get_all_vregs, hs, hc]
    · cases hrfc : p.VU.reg_file <;>
        simp [spike_get_all_vregs, hs, hcore, hrfc, hv, not_le.mpr hc]
  · rcases le_or_lt cap 0 with hc | hc
    · simp [spike_get_all_vregs, hs, hc]
    · simp [spike_get_all_vregs, hs, hcore, hr, not_le.mpr hc]
  · rcases le_or_lt cap 0 with hc | hc
    · simp [spike_get_all_vregs, hs, hc]
    · simp [spike_get_all_vregs, hs, hcore, not_le.mpr hc]

/-- Witness for C6 at the concrete engine: `VLEN = 128`, capacity 64
gives exactly 64 words, word 0 being the low 64 bits of register 0;
null buffer and negative capacity give `([], 0)`. -/
theorem spike_get_all_vregs_layout_witness :
    (spike_get_all_vregs witEngine liveState 0 false 64).2 = ((64 : Nat) : Int)
    ∧ (spike_get_all_vregs witEngine liveState 0 false 64).1.length = 64
    ∧ (spike_get_all_vregs witEngine liveState 0 false 64).1[0]?
        = some (leBytes ((List.replicate 512 0).take 16) % 2 ^ 64)
    ∧ spike_get_all_vregs witEngine liveState 0 true 64 = ([], 0)
    ∧ spike_get_all_vregs witEngine liveState 0 false (-3) = ([], 0) := by
  have h := spike_get_all_vregs_layout witEngine liveState 0 0 rfl
  have hm := h.1 witProc (List.replicate 512 0) 64 rfl rfl (by decide) (by decide)
    (by decide)
  exact ⟨hm.1, hm.2.1,
    hm.2.2 (by decide) (fun b hb => by
      have := List.eq_of_mem_replicate hb
      omega),
    h.2.1 64, h.2.2.1 (-3) (by decide)⟩

/-- C10: `spike_set_pc` on a live instance leaves the stored initial-PC
override unchanged, so in `setPc P0; create; setPc P1; delete; create`
the second instance's initial PC resolves from the stored override
`P0`, not from the live-applied `P1`. -/
theorem spike_set_pc_live_preserves_override (eng : SpikeEngine μ σ)
    (st0 : WrapperState σ) (P0 P1 hart : Nat) (fn : String) (m : μ)
    (s0 s1 s2 s3 s4 : σ)
    (h0 : st0.g_sim = none)
    (hmem : eng.new_mem (st0.g_dram_size_override.getD g_dram_size_default) = .ok m)
    (hsim : eng.new_sim
      { isa := st0.g_isa_override.getD g_isa_default, priv := "M", hartids := [0] }
      false [(st0.g_dram_base_override.getD g_dram_base_default, m)] []
      ["+payload=" ++ fn, fn] dm_config_fixed "dpi_spike.log" false none false
      none none = .ok s0)
    (hdbg : eng.set_debug s0 false = .ok s1)
    (hstart : eng.start s1 = .ok s2)
    (hreset : eng.dpi_reset s2 = .ok s3)
    (hP0 : eng.dpi_set_pc s3 P0 = .ok s4)
    (hget : eng.dpi_get_pc s4 hart = .ok P0) :
    (spike_set_pc eng (spike_create eng (spike_set_pc eng st0 P0) (some fn))
        P1).g_initial_pc_override = some P0
    ∧ spike_get_pc eng
        (spike_create eng
          (spike_delete
            (spike_set_pc eng
              (spike_create eng (spike_set_pc eng st0 P0) (some fn)) P1))
          (some fn)) hart = P0 := by
  have hA : spike_set_pc eng st0 P0 =
      { st0 with g_initial_pc_override := some P0 } := by
    simp [spike_set_pc, h0]
  have hB : spike_create eng (spike_set_pc eng st0 P0) (some fn) =
      { st0 with
          g_initial_pc_override := some P0
          g_sim := some s4
          configsLive := st0.configsLive + 1
          memsLive := st0.memsLive + 1 } := by
    rw [hA]
    exact create_success_state eng _ fn m s0 s1 s2 s3 s4 h0 hmem hsim hdbg
      hstart hreset hP0
  have hD : spike_delete (spike_set_pc eng
      ({ st0 with
          g_initial_pc_override := some P0
          g_sim := some s4
          configsLive := st0.configsLive + 1
          memsLive := st0.memsLive + 1 }) P1) =
      { st0 with
          g_initial_pc_override := some P0
          g_sim := none
          configsLive := st0.configsLive + 1
          memsLive := st0.memsLive + 1 } := by
    cases hc : eng.dpi_set_pc s4 P1 <;> simp [spike_set_pc, spike_delete, hc]
  have hE := create_success_state eng
    ({ st0 with
        g_initial_pc_override := some P0
        g_sim := none
        configsLive := st0.configsLive + 1
        memsLive := st0.memsLive + 1 }) fn m s0 s1 s2 s3 s4 rfl hmem hsim hdbg
    hstart hreset hP0
  constructor
  · rw [hB]
    cases hc : eng.dpi_set_pc s4 P1 <;> simp [spike_set_pc, hc]
  · rw [hB, hD, hE]
    simp [spike_get_pc, hget]

/-- Witness for C10: with overrides `P0 = 0x1000` stored, `P1 = 0x2000`
applied live, the recreated instance's PC is `0x1000`. -/
theorem spike_set_pc_live_preserves_override_witness :
    (spike_set_pc witEngine
        (spike_create witEngine (spike_set_pc witEngine initState 0x1000)
          (some "prog.elf")) 0x2000).g_initial_pc_override = some 0x1000
    ∧ spike_get_pc witEngine
        (spike_create witEngine
          (spike_delete
            (spike_set_pc witEngine
              (spike_create witEngine (spike_set_pc witEngine initState 0x1000)
                (some "prog.elf")) 0x2000))
          (some "prog.elf")) 0 = 0x1000 :=
  spike_set_pc_live_preserves_override witEngine initState 0x1000 0x2000 0
    "prog.elf" g_dram_size_default 0 0 0 0 0x1000 rfl rfl rfl rfl rfl rfl rfl rfl
